import Mathlib

/-!
Verification of the rockit-astro/domed-pulsar repository against its
natural-language specification.

The embedding covers:
* `src/shutter.py` — the low-level shutter CLI tool that writes protocol
  bytes to the serial port (open 0xF1, close 0xF2, abort 0xFF, optional
  trailing heartbeat byte);
* `src/rockit/dome/pulsar/constants.py` — the `CommandStatus`,
  `AzimuthStatus`, `ShutterStatus` and `HeartbeatStatus` tables and their
  `message` / `label` functions;
* `src/rockit/dome/pulsar/config.py` — the baud-rate bounds of
  `CONFIG_SCHEMA`;
* a heartbeat-monitor transition system modelled from the specification
  (the daemon implementing it is not part of the visible sources).
-/

namespace Pulsar

/-! ## shutter.py — CLI byte protocol

The `__main__` block of `src/shutter.py` parses `--open`, `--close` and
`--heartbeat` (default `-1`), then writes: `b'\xf1'` if `args.open`,
else `b'\xf2'` if `args.close`; then, if `0 <= args.heartbeat <= 240`,
the single byte `bytes([args.heartbeat])`.  On `KeyboardInterrupt` it
writes `b'\xff'`. -/

/-- Command-line arguments of `shutter.py`: the two motion flags and the
integer `--heartbeat` value (argparse default `-1`). -/
structure Args where
  openFlag : Bool
  closeFlag : Bool
  heartbeat : Int

/-- Bytes written by the `if args.open: ... elif args.close: ...` chain of
`shutter.py`. -/
def motionBytes (a : Args) : List Nat :=
  if a.openFlag then [0xF1]
  else if a.closeFlag then [0xF2]
  else []

/-- Bytes written by the `if 0 <= args.heartbeat <= 240:
port.write(bytes([args.heartbeat]))` statement of `shutter.py`. -/
def heartbeatBytes (v : Int) : List Nat :=
  if 0 ≤ v ∧ v ≤ 240 then [v.toNat] else []

/-- All bytes the `shutter.py` main path writes to the port, in order:
the motion byte (if any) followed by the heartbeat byte (if any). -/
def cliWrites (a : Args) : List Nat :=
  motionBytes a ++ heartbeatBytes a.heartbeat

/-- The byte written by the `KeyboardInterrupt` handler of `shutter.py`. -/
def abortBytes : List Nat := [0xFF]

/-! ## constants.py — status codes, messages and labels -/

namespace CommandStatus

/-- `CommandStatus.Succeeded = 0` in `constants.py`. -/
def Succeeded : Int := 0

/-- `CommandStatus.Failed = 1` in `constants.py`. -/
def Failed : Int := 1

/-- `CommandStatus.Blocked = 2` in `constants.py`. -/
def Blocked : Int := 2

/-- `CommandStatus.InvalidControlIP = 3` in `constants.py`. -/
def InvalidControlIP : Int := 3

/-- `CommandStatus.NotConnected = 7` in `constants.py`. -/
def NotConnected : Int := 7

/-- `CommandStatus.NotDisconnected = 8` in `constants.py`. -/
def NotDisconnected : Int := 8

/-- `CommandStatus.NotHomed = 9` in `constants.py`. -/
def NotHomed : Int := 9

/-- `CommandStatus.HeartbeatTimedOut = 13` in `constants.py`. -/
def HeartbeatTimedOut : Int := 13

/-- `CommandStatus.HeartbeatCloseInProgress = 14` in `constants.py`. -/
def HeartbeatCloseInProgress : Int := 14

/-- `CommandStatus.HeartbeatInvalidTimeout = 16` in `constants.py`. -/
def HeartbeatInvalidTimeout : Int := 16

/-- `CommandStatus.EngineeringModeRequiresHeartbeatDisabled = 17`. -/
def EngineeringModeRequiresHeartbeatDisabled : Int := 17

/-- `CommandStatus.EngineeringModeActive = 18` in `constants.py`. -/
def EngineeringModeActive : Int := 18

/-- The `CommandStatus._messages` dictionary of `constants.py`, as an
association list in source order. -/
def messages : List (Int × String) :=
  [ (1, "error: command failed"),
    (2, "error: another command is already running"),
    (3, "error: command not accepted from this IP"),
    (7, "error: dome is not connected"),
    (8, "error: dome is already connected"),
    (9, "error: dome has not been homed"),
    (13, "error: heartbeat has tripped"),
    (14, "error: heartbeat is closing the dome"),
    (16, "error: heartbeat timeout must be less than 120s"),
    (17, "error: heartbeat must be disabled before enabling engineering mode"),
    (18, "error: dome is in engineering mode"),
    (-100, "error: terminated by user"),
    (-101, "error: unable to communicate with dome daemon") ]

/-- `CommandStatus.message`: returns the `_messages` entry when the code is
a key of the dictionary, else the f-string fallback
`error: Unknown error code ...` with the code interpolated. -/
def message (error_code : Int) : String :=
  match messages.lookup error_code with
  | some m => m
  | none => "error: Unknown error code " ++ toString error_code

end CommandStatus

namespace AzimuthStatus

/-- `Disconnected, NotHomed, Idle, Moving, Homing = range(5)`. -/
def Disconnected : Int := 0

/-- Azimuth status `NotHomed` from `range(5)`. -/
def NotHomed : Int := 1

/-- Azimuth status `Idle` from `range(5)`. -/
def Idle : Int := 2

/-- Azimuth status `Moving` from `range(5)`. -/
def Moving : Int := 3

/-- Azimuth status `Homing` from `range(5)`. -/
def Homing : Int := 4

/-- The `AzimuthStatus._labels` dictionary. -/
def labels : List (Int × String) :=
  [ (0, "DISCONNECTED"), (1, "NOT HOMED"), (2, "IDLE"),
    (3, "MOVING"), (4, "HOMING") ]

/-- The `AzimuthStatus._colors` dictionary. -/
def colors : List (Int × String) :=
  [ (0, "red"), (1, "red"), (2, "default"), (3, "yellow"), (4, "yellow") ]

/-- `AzimuthStatus.label(status, formatting)`: with formatting, wraps the
label in bold/color markup when the status is in both dictionaries and
falls back to the red UNKNOWN markup otherwise; without formatting,
returns the raw label or `UNKNOWN`. -/
def label (status : Int) (formatting : Bool) : String :=
  if formatting then
    match labels.lookup status, colors.lookup status with
    | some l, some c => "[b][" ++ c ++ "]" ++ l ++ "[/" ++ c ++ "][/b]"
    | _, _ => "[b][red]UNKNOWN[/red][/b]"
  else
    match labels.lookup status with
    | some l => l
    | none => "UNKNOWN"

end AzimuthStatus

namespace ShutterStatus

/-- `PartOpen, Open, Closed, Opening, Closing, Disconnected = range(6)`. -/
def PartOpen : Int := 0

/-- Shutter status `Open` from `range(6)`. -/
def Open : Int := 1

/-- Shutter status `Closed` from `range(6)`. -/
def Closed : Int := 2

/-- Shutter status `Opening` from `range(6)`. -/
def Opening : Int := 3

/-- Shutter status `Closing` from `range(6)`. -/
def Closing : Int := 4

/-- Shutter status `Disconnected` from `range(6)`. -/
def Disconnected : Int := 5

/-- The `ShutterStatus._labels` dictionary. -/
def labels : List (Int × String) :=
  [ (0, "PART OPEN"), (1, "OPEN"), (2, "CLOSED"),
    (3, "OPENING"), (4, "CLOSING"), (5, "DISCONNECTED") ]

/-- The `ShutterStatus._colors` dictionary. -/
def colors : List (Int × String) :=
  [ (0, "cyan"), (1, "green"), (2, "red"),
    (3, "yellow"), (4, "yellow"), (5, "red") ]

/-- `ShutterStatus.label(status, formatting)`, same shape as
`AzimuthStatus.label`. -/
def label (status : Int) (formatting : Bool) : String :=
  if formatting then
    match labels.lookup status, colors.lookup status with
    | some l, some c => "[b][" ++ c ++ "]" ++ l ++ "[/" ++ c ++ "][/b]"
    | _, _ => "[b][red]UNKNOWN[/red][/b]"
  else
    match labels.lookup status with
    | some l => l
    | none => "UNKNOWN"

end ShutterStatus

namespace HeartbeatStatus

/-- `Disabled, Active, TimedOut = range(3)`. -/
def Disabled : Int := 0

/-- Heartbeat status `Active` from `range(3)`. -/
def Active : Int := 1

/-- Heartbeat status `TimedOut` from `range(3)`. -/
def TimedOut : Int := 2

/-- The `HeartbeatStatus._labels` dictionary. -/
def labels : List (Int × String) :=
  [ (0, "DISABLED"), (1, "ACTIVE"), (2, "TIMED OUT") ]

/-- The `HeartbeatStatus._colors` dictionary. -/
def colors : List (Int × String) :=
  [ (0, "default"), (1, "green"), (2, "red") ]

/-- `HeartbeatStatus.label(status, formatting)`, same shape as
`AzimuthStatus.label`. -/
def label (status : Int) (formatting : Bool) : String :=
  if formatting then
    match labels.lookup status, colors.lookup status with
    | some l, some c => "[b][" ++ c ++ "]" ++ l ++ "[/" ++ c ++ "][/b]"
    | _, _ => "[b][red]UNKNOWN[/red][/b]"
  else
    match labels.lookup status with
    | some l => l
    | none => "UNKNOWN"

end HeartbeatStatus

/-! ## config.py — CONFIG_SCHEMA baud-rate bounds -/

/-- The integer bounds of a `minimum`/`maximum` JSON-schema property. -/
structure IntegerBounds where
  minimum : Int
  maximum : Int

/-- The `azimuth_serial_baud` property of `CONFIG_SCHEMA`:
`minimum: 115200, maximum: 115200`. -/
def azimuth_serial_baud_bounds : IntegerBounds := ⟨115200, 115200⟩

/-- The `shutter_serial_baud` property of `CONFIG_SCHEMA`:
`minimum: 4800, maximum: 4800`. -/
def shutter_serial_baud_bounds : IntegerBounds := ⟨4800, 4800⟩

/-- JSON-schema acceptance of an integer against `minimum`/`maximum`
bounds (the check `validation.validate_config` applies to these fields). -/
def boundsAccept (b : IntegerBounds) (v : Int) : Bool :=
  decide (b.minimum ≤ v) && decide (v ≤ b.maximum)

/-- Acceptance of the two baud fields by `CONFIG_SCHEMA`; a `false` result
means a schema violation, which `Config.__init__` lets propagate, aborting
the configuration load. -/
def baudsAccept (azimuth shutter : Int) : Bool :=
  boundsAccept azimuth_serial_baud_bounds azimuth &&
  boundsAccept shutter_serial_baud_bounds shutter

/-! ## Heartbeat monitor — modelled from the specification

The daemon that owns the heartbeat timer is not among the visible source
files; only its status vocabulary (`HeartbeatStatus`) and its low-level
wire tool (`shutter.py`) are.  The transition system below is modelled
from the specification's HeartbeatMonitor description. -/

namespace Monitor

/-- Modelled from the spec: the HeartbeatMonitor state — `Disabled`
(value 0), `Active` with the remaining whole seconds, or `TimedOut`
(expiry reached without refresh). -/
inductive HbState where
  | Disabled : HbState
  | Active : Nat → HbState
  | TimedOut : HbState
deriving DecidableEq, Repr

/-- Modelled from the spec: the state visible through `status()` — the
heartbeat state and the shutter state (a `ShutterStatus` code). -/
structure DomeState where
  hb : HbState
  shutter : Int
deriving DecidableEq, Repr

/-- Modelled from the spec: events the monitor's world can see — one
second of wall-clock time, a heartbeat-set command with a requested
value, or any other motion command that would drive the shutter toward a
target state. -/
inductive Event where
  | Tick : Event
  | Refresh : Int → Event
  | Motion : Int → Event
deriving DecidableEq, Repr

/-- Whether an event is a heartbeat refresh (heartbeat-set command). -/
def isRefresh : Event → Bool
  | Event.Refresh _ => true
  | _ => false

/-- Number of `Tick` events (elapsed whole seconds) in a trace. -/
def tickCount : List Event → Nat
  | [] => 0
  | Event.Tick :: es => tickCount es + 1
  | _ :: es => tickCount es

/-- Modelled from the spec: one step of the autonomous forced close once
the heartbeat has tripped — the monitor commands the shutter closed, so a
closing shutter completes to `Closed`, a closed shutter stays `Closed`,
and any other position is driven to `Closing`. -/
def forcedCloseStep (sh : Int) : Int :=
  if sh = ShutterStatus.Closed then ShutterStatus.Closed
  else if sh = ShutterStatus.Closing then ShutterStatus.Closed
  else ShutterStatus.Closing

/-- Modelled from the spec: the transition function of the monitor.
`Tick`: an active countdown decrements and trips to `TimedOut` when it
lapses, starting the forced close; once `TimedOut`, each tick advances
the forced close.  `Refresh v`: rejected while `TimedOut` unless the
automatic close has completed; otherwise accepted iff `0 ≤ v ≤ 240`,
with 0 disabling the heartbeat and `1..240` arming it.  `Motion t`:
rejected with `HeartbeatTimedOut` while the heartbeat has tripped,
otherwise drives the shutter toward `t`. -/
def step (s : DomeState) (e : Event) : DomeState :=
  match e with
  | Event.Tick =>
    match s.hb with
    | HbState.Disabled => s
    | HbState.Active n =>
      if n ≤ 1 then { hb := HbState.TimedOut, shutter := ShutterStatus.Closing }
      else { s with hb := HbState.Active (n - 1) }
    | HbState.TimedOut => { s with shutter := forcedCloseStep s.shutter }
  | Event.Refresh v =>
    if s.hb = HbState.TimedOut ∧ s.shutter ≠ ShutterStatus.Closed then s
    else if 0 ≤ v ∧ v ≤ 240 then
      if v = 0 then { s with hb := HbState.Disabled }
      else { s with hb := HbState.Active v.toNat }
    else s
  | Event.Motion t =>
    match s.hb with
    | HbState.TimedOut => s
    | _ => { s with shutter := t }

/-- Folds `step` over a trace of events. -/
def run (s : DomeState) : List Event → DomeState
  | [] => s
  | e :: es => run (step s e) es

end Monitor

/-! ## Shared helper lemmas -/

/-- A key absent from the first components of an association list has no
lookup result. -/
theorem lookup_eq_none_of_not_mem {l : List (Int × String)} {c : Int}
    (h : c ∉ l.map Prod.fst) : l.lookup c = none := by
  induction l with
  | nil => rfl
  | cons p l ih =>
    rw [List.map_cons, List.mem_cons] at h
    push_neg at h
    obtain ⟨h1, h2⟩ := h
    obtain ⟨k, m⟩ := p
    have hne : (c == k) = false := beq_eq_false_iff_ne.mpr h1
    rw [List.lookup_cons, hne]
    exact ih h2

/-! ## Theorems for the claims -/

/-- C1: for every integer heartbeat value `v`, `shutter.py` sends the
heartbeat byte to the hardware iff `0 ≤ v ≤ 240`, and when accepted the
hardware receives exactly `v` as a single trailing byte; outside the
range (including the CLI default `-1`) no heartbeat byte is written. -/
theorem heartbeat_set_iff_in_range (v : Int) :
    ((∃ b : Nat, heartbeatBytes v = [b] ∧ (b : Int) = v) ↔ (0 ≤ v ∧ v ≤ 240))
    ∧ (¬(0 ≤ v ∧ v ≤ 240) → heartbeatBytes v = []) := by
  constructor
  · constructor
    · rintro ⟨b, hb, rfl⟩
      by_contra h
      simp [heartbeatBytes] at hb
      omega
    · rintro ⟨h0, h240⟩
      refine ⟨v.toNat, ?_, Int.toNat_of_nonneg h0⟩
      simp [heartbeatBytes, h0, h240]
  · intro h
    simp [heartbeatBytes, h]

/-- Witness for C1 at the CLI default `-1`: no heartbeat byte is
written. -/
theorem heartbeat_set_iff_in_range_witness :
    heartbeatBytes (-1) = [] :=
  (heartbeat_set_iff_in_range (-1)).2 (by decide)

/-- C2 counterexample: the requested timeout 121 exceeds 120 seconds yet
`shutter.py` sends it to the hardware, so there is no 120-second hard
ceiling in the code. -/
theorem heartbeat_ceiling_counterexample :
    (120 : Int) < 121 ∧ heartbeatBytes 121 = [121] := by decide

/-- C2 (amended): the ceiling the code enforces is 240, not 120 — every
requested timeout greater than 240 is not sent to the hardware, while
the 120-second limit appears only in the `HeartbeatInvalidTimeout`
message text. -/
theorem heartbeat_ceiling_amended (v : Int) (h : 240 < v) :
    heartbeatBytes v = [] ∧
    CommandStatus.message CommandStatus.HeartbeatInvalidTimeout =
      "error: heartbeat timeout must be less than 120s" := by
  have hv : ¬(0 ≤ v ∧ v ≤ 240) := by omega
  exact ⟨by simp [heartbeatBytes, hv], rfl⟩

/-- Witness for C2's amended claim at the requested timeout 241. -/
theorem heartbeat_ceiling_amended_witness :
    heartbeatBytes 241 = [] ∧
    CommandStatus.message CommandStatus.HeartbeatInvalidTimeout =
      "error: heartbeat timeout must be less than 120s" :=
  heartbeat_ceiling_amended 241 (by decide)

/-- C4: the serial wire protocol of `shutter.py` — open writes exactly
the single byte 0xF1, close exactly 0xF2, abort exactly 0xFF; an
in-range heartbeat value follows as one trailing byte equal to the
value, and a refresh with value 0 disables the heartbeat in the
monitor. -/
theorem serial_wire_protocol (v : Int) (h0 : 0 ≤ v) (h240 : v ≤ 240) :
    motionBytes ⟨true, false, -1⟩ = [0xF1] ∧
    motionBytes ⟨false, true, -1⟩ = [0xF2] ∧
    abortBytes = [0xFF] ∧
    (heartbeatBytes v = [v.toNat] ∧ (v.toNat : Int) = v) ∧
    (Monitor.step ⟨Monitor.HbState.Active 10, ShutterStatus.Open⟩
        (Monitor.Event.Refresh 0)).hb = Monitor.HbState.Disabled := by
  refine ⟨rfl, rfl, rfl, ⟨?_, Int.toNat_of_nonneg h0⟩, by decide⟩
  simp [heartbeatBytes, h0, h240]

/-- Witness for C4 at the in-range heartbeat value 7. -/
theorem serial_wire_protocol_witness :
    motionBytes ⟨true, false, -1⟩ = [0xF1] ∧
    motionBytes ⟨false, true, -1⟩ = [0xF2] ∧
    abortBytes = [0xFF] ∧
    (heartbeatBytes 7 = [(7 : Int).toNat] ∧ ((7 : Int).toNat : Int) = 7) ∧
    (Monitor.step ⟨Monitor.HbState.Active 10, ShutterStatus.Open⟩
        (Monitor.Event.Refresh 0)).hb = Monitor.HbState.Disabled :=
  serial_wire_protocol 7 (by decide) (by decide)

/-- C5: `CommandStatus` is a closed enumeration of pairwise-distinct
codes — `Succeeded = 0`, every categorized failure code positive, the
operator-abort/daemon-unreachable codes (the negative keys of the
message table) exactly `-100` and `-101`. -/
theorem command_status_enumeration :
    CommandStatus.Succeeded = 0 ∧
    (0 < CommandStatus.Failed ∧ 0 < CommandStatus.Blocked ∧
     0 < CommandStatus.InvalidControlIP ∧ 0 < CommandStatus.NotConnected ∧
     0 < CommandStatus.NotDisconnected ∧ 0 < CommandStatus.NotHomed ∧
     0 < CommandStatus.HeartbeatTimedOut ∧
     0 < CommandStatus.HeartbeatCloseInProgress ∧
     0 < CommandStatus.HeartbeatInvalidTimeout ∧
     0 < CommandStatus.EngineeringModeRequiresHeartbeatDisabled ∧
     0 < CommandStatus.EngineeringModeActive) ∧
    (CommandStatus.messages.filter (fun p => decide (p.1 < 0))).map Prod.fst
      = [-100, -101] ∧
    ([CommandStatus.Succeeded, CommandStatus.Failed, CommandStatus.Blocked,
      CommandStatus.InvalidControlIP, CommandStatus.NotConnected,
      CommandStatus.NotDisconnected, CommandStatus.NotHomed,
      CommandStatus.HeartbeatTimedOut, CommandStatus.HeartbeatCloseInProgress,
      CommandStatus.HeartbeatInvalidTimeout,
      CommandStatus.EngineeringModeRequiresHeartbeatDisabled,
      CommandStatus.EngineeringModeActive, -100, -101] : List Int).Nodup := by
  decide

/-- C6: `CONFIG_SCHEMA` accepts the baud fields iff the azimuth baud is
exactly 115200 and the shutter baud is exactly 4800; any other value is
a schema violation that aborts the configuration load. -/
theorem baud_rates_fixed (az sh : Int) :
    baudsAccept az sh = true ↔ (az = 115200 ∧ sh = 4800) := by
  simp only [baudsAccept, boundsAccept, azimuth_serial_baud_bounds,
    shutter_serial_baud_bounds, Bool.and_eq_true, decide_eq_true_eq]
  omega

/-- Witness for C6: the fixed baud pair 115200/4800 is accepted. -/
theorem baud_rates_fixed_witness :
    baudsAccept 115200 4800 = true :=
  (baud_rates_fixed 115200 4800).mpr ⟨rfl, rfl⟩

/-- C7: each status `label` function returns the fixed label of every
defined enum value (and, with formatting, the fixed color markup), and
returns `UNKNOWN` (resp. the red-formatted UNKNOWN string) for every
other integer. -/
theorem status_label_total (s : Int) :
    (s ∉ AzimuthStatus.labels.map Prod.fst →
      AzimuthStatus.label s false = "UNKNOWN" ∧
      AzimuthStatus.label s true = "[b][red]UNKNOWN[/red][/b]") ∧
    (s ∉ ShutterStatus.labels.map Prod.fst →
      ShutterStatus.label s false = "UNKNOWN" ∧
      ShutterStatus.label s true = "[b][red]UNKNOWN[/red][/b]") ∧
    (s ∉ HeartbeatStatus.labels.map Prod.fst →
      HeartbeatStatus.label s false = "UNKNOWN" ∧
      HeartbeatStatus.label s true = "[b][red]UNKNOWN[/red][/b]") ∧
    (AzimuthStatus.label 0 false = "DISCONNECTED" ∧
     AzimuthStatus.label 1 false = "NOT HOMED" ∧
     AzimuthStatus.label 2 false = "IDLE" ∧
     AzimuthStatus.label 3 false = "MOVING" ∧
     AzimuthStatus.label 4 false = "HOMING" ∧
     AzimuthStatus.label 0 true = "[b][red]DISCONNECTED[/red][/b]" ∧
     AzimuthStatus.label 1 true = "[b][red]NOT HOMED[/red][/b]" ∧
     AzimuthStatus.label 2 true = "[b][default]IDLE[/default][/b]" ∧
     AzimuthStatus.label 3 true = "[b][yellow]MOVING[/yellow][/b]" ∧
     AzimuthStatus.label 4 true = "[b][yellow]HOMING[/yellow][/b]") ∧
    (ShutterStatus.label 0 false = "PART OPEN" ∧
     ShutterStatus.label 1 false = "OPEN" ∧
     ShutterStatus.label 2 false = "CLOSED" ∧
     ShutterStatus.label 3 false = "OPENING" ∧
     ShutterStatus.label 4 false = "CLOSING" ∧
     ShutterStatus.label 5 false = "DISCONNECTED" ∧
     ShutterStatus.label 0 true = "[b][cyan]PART OPEN[/cyan][/b]" ∧
     ShutterStatus.label 1 true = "[b][green]OPEN[/green][/b]" ∧
     ShutterStatus.label 2 true = "[b][red]CLOSED[/red][/b]" ∧
     ShutterStatus.label 3 true = "[b][yellow]OPENING[/yellow][/b]" ∧
     ShutterStatus.label 4 true = "[b][yellow]CLOSING[/yellow][/b]" ∧
     ShutterStatus.label 5 true = "[b][red]DISCONNECTED[/red][/b]") ∧
    (HeartbeatStatus.label 0 false = "DISABLED" ∧
     HeartbeatStatus.label 1 false = "ACTIVE" ∧
     HeartbeatStatus.label 2 false = "TIMED OUT" ∧
     HeartbeatStatus.label 0 true = "[b][default]DISABLED[/default][/b]" ∧
     HeartbeatStatus.label 1 true = "[b][green]ACTIVE[/green][/b]" ∧
     HeartbeatStatus.label 2 true = "[b][red]TIMED OUT[/red][/b]") := by
  refine ⟨?_, ?_, ?_, by decide, by decide, by decide⟩
  · intro h
    have hn := lookup_eq_none_of_not_mem h
    exact ⟨by simp [AzimuthStatus.label, hn], by simp [AzimuthStatus.label, hn]⟩
  · intro h
    have hn := lookup_eq_none_of_not_mem h
    exact ⟨by simp [ShutterStatus.label, hn], by simp [ShutterStatus.label, hn]⟩
  · intro h
    have hn := lookup_eq_none_of_not_mem h
    exact ⟨by simp [HeartbeatStatus.label, hn], by simp [HeartbeatStatus.label, hn]⟩

/-- Witness for C7 at the undefined status value 99: all three label
functions fall back to UNKNOWN. -/
theorem status_label_total_witness :
    (AzimuthStatus.label 99 false = "UNKNOWN" ∧
     AzimuthStatus.label 99 true = "[b][red]UNKNOWN[/red][/b]") ∧
    (ShutterStatus.label 99 false = "UNKNOWN" ∧
     ShutterStatus.label 99 true = "[b][red]UNKNOWN[/red][/b]") ∧
    (HeartbeatStatus.label 99 false = "UNKNOWN" ∧
     HeartbeatStatus.label 99 true = "[b][red]UNKNOWN[/red][/b]") :=
  ⟨(status_label_total 99).1 (by decide),
   (status_label_total 99).2.1 (by decide),
   (status_label_total 99).2.2.1 (by decide)⟩

/-- C8: the azimuth status enumeration is exactly Disconnected, NotHomed,
Idle, Moving, Homing numbered 0–4 in that order, and the shutter status
enumeration is exactly PartOpen, Open, Closed, Opening, Closing,
Disconnected numbered 0–5 in that order. -/
theorem status_enumerations :
    (AzimuthStatus.Disconnected = 0 ∧ AzimuthStatus.NotHomed = 1 ∧
     AzimuthStatus.Idle = 2 ∧ AzimuthStatus.Moving = 3 ∧
     AzimuthStatus.Homing = 4 ∧
     AzimuthStatus.labels.map Prod.fst = [0, 1, 2, 3, 4]) ∧
    (ShutterStatus.PartOpen = 0 ∧ ShutterStatus.Open = 1 ∧
     ShutterStatus.Closed = 2 ∧ ShutterStatus.Opening = 3 ∧
     ShutterStatus.Closing = 4 ∧ ShutterStatus.Disconnected = 5 ∧
     ShutterStatus.labels.map Prod.fst = [0, 1, 2, 3, 4, 5]) := by
  decide

/-- C9: `CommandStatus.message` is total over the integers — it returns
the fixed message for each key of the table and the fallback
`error: Unknown error code ...` for every other integer, including
`Succeeded` (0), which has no table entry. -/
theorem command_status_message_total (c : Int)
    (hc : c ∉ CommandStatus.messages.map Prod.fst) :
    CommandStatus.message c = "error: Unknown error code " ++ toString c ∧
    CommandStatus.message CommandStatus.Succeeded = "error: Unknown error code 0" ∧
    CommandStatus.message 1 = "error: command failed" ∧
    CommandStatus.message 2 = "error: another command is already running" ∧
    CommandStatus.message 3 = "error: command not accepted from this IP" ∧
    CommandStatus.message 7 = "error: dome is not connected" ∧
    CommandStatus.message 8 = "error: dome is already connected" ∧
    CommandStatus.message 9 = "error: dome has not been homed" ∧
    CommandStatus.message 13 = "error: heartbeat has tripped" ∧
    CommandStatus.message 14 = "error: heartbeat is closing the dome" ∧
    CommandStatus.message 16 = "error: heartbeat timeout must be less than 120s" ∧
    CommandStatus.message 17 =
      "error: heartbeat must be disabled before enabling engineering mode" ∧
    CommandStatus.message 18 = "error: dome is in engineering mode" ∧
    CommandStatus.message (-100) = "error: terminated by user" ∧
    CommandStatus.message (-101) = "error: unable to communicate with dome daemon" := by
  refine ⟨?_, by decide⟩
  have hn := lookup_eq_none_of_not_mem hc
  simp [CommandStatus.message, hn]

/-- Witness for C9 at the code 5, which is absent from the message
table. -/
theorem command_status_message_total_witness :
    ((5 : Int) ∉ CommandStatus.messages.map Prod.fst) ∧
    CommandStatus.message 5 = "error: Unknown error code " ++ toString (5 : Int) :=
  ⟨by decide, (command_status_message_total 5 (by decide)).1⟩

/-- C10: when `shutter.py` is invoked with both `--open` and `--close`,
the first byte written is the open byte 0xF1 and the close byte 0xF2 is
never written: the `elif` chain gives open precedence. -/
theorem open_flag_takes_precedence (v : Int) :
    (cliWrites ⟨true, true, v⟩).head? = some 0xF1 ∧
    0xF2 ∉ cliWrites ⟨true, true, v⟩ := by
  constructor
  · simp [cliWrites, motionBytes]
  · intro hmem
    simp only [cliWrites, motionBytes, heartbeatBytes, if_true,
      List.cons_append, List.nil_append, List.mem_cons] at hmem
    rcases hmem with h | h
    · omega
    · by_cases hv : 0 ≤ v ∧ v ≤ 240
      · rw [if_pos hv] at h
        simp only [List.mem_singleton] at h
        omega
      · rw [if_neg hv] at h
        simp at h

/-- Witness for C10 at the default heartbeat value `-1`. -/
theorem open_flag_takes_precedence_witness :
    (cliWrites ⟨true, true, -1⟩).head? = some 0xF1 ∧
    0xF2 ∉ cliWrites ⟨true, true, -1⟩ :=
  open_flag_takes_precedence (-1)

/-- Once the heartbeat has tripped and the forced close has completed, a
refresh-free trace leaves the state at TimedOut/Closed: motion commands
are rejected and ticks keep the shutter closed. -/
theorem run_stays_timedOut_closed (es : List Monitor.Event)
    (hnr : ∀ e ∈ es, Monitor.isRefresh e = false) :
    Monitor.run ⟨Monitor.HbState.TimedOut, ShutterStatus.Closed⟩ es
      = ⟨Monitor.HbState.TimedOut, ShutterStatus.Closed⟩ := by
  induction es with
  | nil => rfl
  | cons e es ih =>
    have he := hnr e (List.mem_cons_self e es)
    have hrest : ∀ e' ∈ es, Monitor.isRefresh e' = false :=
      fun e' h' => hnr e' (List.mem_cons_of_mem e h')
    cases e with
    | Tick =>
      show Monitor.run (Monitor.step _ _) es = _
      rw [show Monitor.step ⟨Monitor.HbState.TimedOut, ShutterStatus.Closed⟩
            Monitor.Event.Tick
          = ⟨Monitor.HbState.TimedOut, ShutterStatus.Closed⟩ from by decide]
      exact ih hrest
    | Refresh v => simp [Monitor.isRefresh] at he
    | Motion t =>
      show Monitor.run (Monitor.step _ _) es = _
      exact ih hrest

/-- After the heartbeat has tripped, with the forced close in progress,
one further tick in a refresh-free trace completes the close. -/
theorem run_closing_reaches_closed (es : List Monitor.Event)
    (hnr : ∀ e ∈ es, Monitor.isRefresh e = false)
    (ht : 1 ≤ Monitor.tickCount es) :
    Monitor.run ⟨Monitor.HbState.TimedOut, ShutterStatus.Closing⟩ es
      = ⟨Monitor.HbState.TimedOut, ShutterStatus.Closed⟩ := by
  induction es with
  | nil => simp [Monitor.tickCount] at ht
  | cons e es ih =>
    have he := hnr e (List.mem_cons_self e es)
    have hrest : ∀ e' ∈ es, Monitor.isRefresh e' = false :=
      fun e' h' => hnr e' (List.mem_cons_of_mem e h')
    cases e with
    | Tick =>
      show Monitor.run (Monitor.step _ _) es = _
      rw [show Monitor.step ⟨Monitor.HbState.TimedOut, ShutterStatus.Closing⟩
            Monitor.Event.Tick
          = ⟨Monitor.HbState.TimedOut, ShutterStatus.Closed⟩ from by decide]
      exact run_stays_timedOut_closed es hrest
    | Refresh v => simp [Monitor.isRefresh] at he
    | Motion t =>
      show Monitor.run (Monitor.step _ _) es = _
      exact ih hrest (by simpa [Monitor.tickCount] using ht)

/-- C3: safety cutoff — from any shutter position, if the heartbeat is
Active with `n ≥ 1` seconds remaining and no heartbeat refresh arrives
in a trace containing at least `n + 1` elapsed seconds, the state read
by the next status query is heartbeat TimedOut with the shutter Closed,
independent of any interleaved motion commands; the cutoff passes
through Closing, which the trip itself commands. -/
theorem heartbeat_safety_cutoff (n : Nat) (sh0 : Int) (es : List Monitor.Event)
    (hn : 1 ≤ n)
    (hnr : ∀ e ∈ es, Monitor.isRefresh e = false)
    (ht : n + 1 ≤ Monitor.tickCount es) :
    Monitor.run ⟨Monitor.HbState.Active n, sh0⟩ es
      = ⟨Monitor.HbState.TimedOut, ShutterStatus.Closed⟩ ∧
    Monitor.step ⟨Monitor.HbState.Active 1, sh0⟩ Monitor.Event.Tick
      = ⟨Monitor.HbState.TimedOut, ShutterStatus.Closing⟩ := by
  refine ⟨?_, by simp [Monitor.step]⟩
  induction es generalizing n sh0 with
  | nil => simp [Monitor.tickCount] at ht
  | cons e es ih =>
    have he := hnr e (List.mem_cons_self e es)
    have hrest : ∀ e' ∈ es, Monitor.isRefresh e' = false :=
      fun e' h' => hnr e' (List.mem_cons_of_mem e h')
    cases e with
    | Tick =>
      have ht' : n ≤ Monitor.tickCount es := by
        simpa [Monitor.tickCount] using ht
      show Monitor.run (Monitor.step _ _) es = _
      by_cases h1 : n ≤ 1
      · have hn1 : n = 1 := le_antisymm h1 hn
        subst hn1
        rw [show Monitor.step ⟨Monitor.HbState.Active 1, sh0⟩ Monitor.Event.Tick
            = ⟨Monitor.HbState.TimedOut, ShutterStatus.Closing⟩ from by
          simp [Monitor.step]]
        exact run_closing_reaches_closed es hrest ht'
      · rw [show Monitor.step ⟨Monitor.HbState.Active n, sh0⟩ Monitor.Event.Tick
            = ⟨Monitor.HbState.Active (n - 1), sh0⟩ from by
          simp [Monitor.step, h1]]
        exact ih (n - 1) sh0 (by omega) hrest (by omega)
    | Refresh v => simp [Monitor.isRefresh] at he
    | Motion t =>
      show Monitor.run (Monitor.step _ _) es = _
      rw [show Monitor.step ⟨Monitor.HbState.Active n, sh0⟩ (Monitor.Event.Motion t)
          = ⟨Monitor.HbState.Active n, t⟩ from by simp [Monitor.step]]
      exact ih n t hn hrest (by simpa [Monitor.tickCount] using ht)

/-- Witness for C3: a heartbeat armed at 1 second with no refresh for
two ticks ends TimedOut with the shutter Closed, having passed through
Closing at the trip. -/
theorem heartbeat_safety_cutoff_witness :
    Monitor.run ⟨Monitor.HbState.Active 1, ShutterStatus.Open⟩
        [Monitor.Event.Tick, Monitor.Event.Tick]
      = ⟨Monitor.HbState.TimedOut, ShutterStatus.Closed⟩ ∧
    Monitor.step ⟨Monitor.HbState.Active 1, ShutterStatus.Open⟩ Monitor.Event.Tick
      = ⟨Monitor.HbState.TimedOut, ShutterStatus.Closing⟩ :=
  heartbeat_safety_cutoff 1 ShutterStatus.Open
    [Monitor.Event.Tick, Monitor.Event.Tick]
    (by decide) (by decide) (by decide)

end Pulsar
